import Mathlib

/-!
Shallow embedding of the ONNX-frontend reduction-operator lowering
(`src/frontends/onnx/.../op/reduce.cpp`-style translation unit).

The translation unit builds target-IR subgraphs for the ONNX reduction
family.  IR node construction (`std::make_shared<...>`) is modelled by the
inductive `IRNode`; every translated function returns, next to its result,
the list of IR nodes it constructed, in construction order, so that
"no node is created" / "a node is created before the failure" claims are
expressible.  Validation failures (`CHECK_VALID_NODE`,
`FRONT_END_GENERAL_CHECK`) become `Except.error` values tagged with the
error taxonomy of the specification.
-/

namespace ONNXReduce

/-- Element types relevant to this family (`ov::element::Type`). -/
inductive ElemType
  | u32 | u64 | i32 | i64 | f16 | f32 | f64 | bf16 | boolean
deriving DecidableEq, Fintype, Repr

/-- The concrete reduction operator kinds the translators instantiate
(`v1::ReduceSum`, `v1::ReduceMean`, ..., `v4::ReduceL1`, `v4::ReduceL2`). -/
inductive ReductionKind
  | sum | mean | min | max | prod | l1 | l2
deriving DecidableEq, Repr

/-- Import-time error taxonomy of the reduction family. -/
inductive TranslationError
  | UnsupportedType
  | AxesRankTooLarge
  | NonStaticAxesShape
deriving DecidableEq, Repr

/-- Target IR nodes constructible by this translation unit.
`param i` stands for a value produced outside the unit (a graph input or a
node built by an earlier translation). -/
inductive IRNode
  | param (id : Nat)
  | constant (et : ElemType) (shape : List Nat) (data : List Int)
  | shapeOf (arg : IRNode)
  | squeeze (arg : IRNode) (axes : IRNode)
  | range (start stop step : IRNode) (et : ElemType)
  | exp (arg : IRNode)
  | log (arg : IRNode)
  | multiply (a b : IRNode)
  | reduction (kind : ReductionKind) (input : IRNode) (axes : IRNode) (keepdims : Bool)
deriving DecidableEq, Repr

/-- Equality of `Except` results is decidable, so concrete translation
outcomes can be checked by evaluation. -/
instance {ε α : Type} [DecidableEq ε] [DecidableEq α] : DecidableEq (Except ε α) :=
  fun a b =>
  match a, b with
  | Except.error e, Except.error f => decidable_of_iff (e = f) (by simp)
  | Except.ok x, Except.ok y => decidable_of_iff (x = y) (by simp)
  | Except.error _, Except.ok _ => isFalse (by simp)
  | Except.ok _, Except.error _ => isFalse (by simp)

/-- A partially known tensor shape (`ov::PartialShape`): `none` is dynamic
rank; otherwise one entry per dimension, `none` marking an unknown extent. -/
structure PShape where
  dims : Option (List (Option Nat))
deriving DecidableEq, Repr

/-- `PartialShape::rank()` — `none` models a dynamic rank. -/
def PShape.rank (p : PShape) : Option Nat :=
  p.dims.map List.length

/-- `PartialShape::is_static()`: rank known and every dimension known. -/
def PShape.isStatic (p : PShape) : Bool :=
  match p.dims with
  | none => false
  | some ds => ds.all fun d => d.isSome

/-- `PartialShape::get_shape()`, meaningful only on static shapes. -/
def PShape.toShape (p : PShape) : List Nat :=
  match p.dims with
  | none => []
  | some ds => ds.map fun d => d.getD 0

/-- An `ov::Output<ov::Node>`: the producing IR node plus its statically
tracked element type and partial shape. -/
structure Value where
  node : IRNode
  elemType : ElemType
  pshape : PShape
deriving DecidableEq, Repr

/-- Placeholder used to model `.at(0)` out of contract; nodes of this family
always have at least one input, so theorems never depend on it. -/
def default_value : Value :=
  Value.mk (IRNode.param 0) ElemType.f32 (PShape.mk none)

/-- The source ONNX operator view: ordered inputs and the typed attributes
this family reads (`axes`, `noop_with_empty_axes`, `keepdims`); a `none`
attribute is absent and falls back to its documented default. -/
structure Node where
  inputs : List Value
  axesAttr : Option (List Int)
  noopAttr : Option Int
  keepdimsAttr : Option Int
deriving DecidableEq, Repr

/-- `node.get_ov_inputs().at(0)`. -/
def Node.input0 (n : Node) : Value :=
  n.inputs.headD default_value

/-- `common::get_monotonic_range<int64_t>(n)` = `[0, 1, ..., n-1]`. -/
def get_monotonic_range (n : Nat) : List Int :=
  (List.range n).map Int.ofNat

/-- The monotonic range has exactly `n` entries. -/
@[simp] theorem get_monotonic_range_length (n : Nat) :
    (get_monotonic_range n).length = n := by
  simp only [get_monotonic_range, List.length_map, List.length_range]

/-- `get_dynamic_all_axes_range`: builds
`Range(0, Squeeze(ShapeOf(ShapeOf(input)), {0}), 1) : i64` and returns it
together with the seven nodes constructed, in construction order. -/
def get_dynamic_all_axes_range (node : Node) : IRNode × List IRNode :=
  let input := node.input0
  let shape_of_input := IRNode.shapeOf input.node
  let scalar := IRNode.constant ElemType.i32 [1] [0]
  let rank_of_input := IRNode.shapeOf shape_of_input
  let rank_of_input_scalar := IRNode.squeeze rank_of_input scalar
  let start := IRNode.constant ElemType.i32 [] [0]
  let step := IRNode.constant ElemType.i32 [] [1]
  let result := IRNode.range start rank_of_input_scalar step ElemType.i64
  (result, [shape_of_input, scalar, rank_of_input, rank_of_input_scalar, start, step, result])

/-- The code after the second-input block of `get_reduction_axes_from_input`:
`if (noop_with_empty_axes) return nullptr; else return
get_dynamic_all_axes_range(node);`. -/
def empty_axes_result (node : Node) (noop_with_empty_axes : Int) :
    Except TranslationError (Option IRNode) × List IRNode :=
  if noop_with_empty_axes != 0 then
    (Except.ok none, [])
  else
    let r := get_dynamic_all_axes_range node
    (Except.ok (some r.1), r.2)

/-- `get_reduction_axes_from_input` (later era): reads
`noop_with_empty_axes` (default 0); when a second input exists, requires its
shape static (`FRONT_END_GENERAL_CHECK`, the `NonStaticAxesShape` failure)
and returns it as the axes node unless it is the rank-0 or `Shape{0}` empty
case, which falls through to `empty_axes_result`. -/
def get_reduction_axes_from_input (node : Node) :
    Except TranslationError (Option IRNode) × List IRNode :=
  let noop_with_empty_axes := node.noopAttr.getD 0
  match node.inputs[1]? with
  | some reduction_axes =>
    if reduction_axes.pshape.isStatic then
      if reduction_axes.pshape.rank.getD 0 != 0 && reduction_axes.pshape.toShape != [0] then
        (Except.ok (some reduction_axes.node), [])
      else
        empty_axes_result node noop_with_empty_axes
    else
      (Except.error TranslationError.NonStaticAxesShape, [])
  | none => empty_axes_result node noop_with_empty_axes

/-- `v0::Constant::create(i64, Shape{axes.size()}, axes)` at the end of
`get_reduction_axes_from_attr`. -/
def mk_axes_const (reduction_axes : List Int) :
    Except TranslationError (Option IRNode) × List IRNode :=
  let c := IRNode.constant ElemType.i64 [reduction_axes.length] reduction_axes
  (Except.ok (some c), [c])

/-- `get_reduction_axes_from_attr` (early era): reads the `axes` attribute
(default empty); empty axes become the monotonic range `[0..rank-1]` when
the first input's rank is static and otherwise the dynamic all-axes range;
with a static rank, `CHECK_VALID_NODE` rejects more axes than the rank
(`AxesRankTooLarge`); the surviving list is emitted as an i64 constant. -/
def get_reduction_axes_from_attr (node : Node) :
    Except TranslationError (Option IRNode) × List IRNode :=
  let axes0 := node.axesAttr.getD []
  let input_rank := node.input0.pshape.rank
  if axes0.isEmpty && input_rank.isNone then
    let r := get_dynamic_all_axes_range node
    (Except.ok (some r.1), r.2)
  else
    let reduction_axes := if axes0.isEmpty then get_monotonic_range (input_rank.getD 0) else axes0
    match input_rank with
    | some r =>
      if reduction_axes.length ≤ r then
        mk_axes_const reduction_axes
      else
        (Except.error TranslationError.AxesRankTooLarge, [])
    | none => mk_axes_const reduction_axes

/-- `supported_types_v1`: u32, u64, i32, i64, f16, f32, f64. -/
def supported_types_v1 : List ElemType :=
  [ElemType.u32, ElemType.u64, ElemType.i32, ElemType.i64,
   ElemType.f16, ElemType.f32, ElemType.f64]

/-- `supported_types_v2`: `supported_types_v1` plus bf16. -/
def supported_types_v2 : List ElemType :=
  [ElemType.u32, ElemType.u64, ElemType.i32, ElemType.i64,
   ElemType.f16, ElemType.f32, ElemType.f64, ElemType.bf16]

/-- Modelled from the spec: `set_1::identity` (declared in `identity.hpp`,
a file outside the sampled sources) returns the node's first input value
unchanged — "no new node is created; output aliases input". -/
def set1_identity (node : Node) : IRNode :=
  node.input0.node

/-- `make_ov_reduction_op<OpType>`: reads `keepdims` (default 1), validates
the element type of `ov_input` against `supported_types`
(`UnsupportedType`), resolves axes from the attribute or the second input,
and either builds the reduction node or, on a null axes result, emits the
identity pass-through. -/
def make_ov_reduction_op (kind : ReductionKind) (node : Node) (ov_input : Value)
    (supported_types : List ElemType) (axes_as_attr : Bool) :
    Except TranslationError IRNode × List IRNode :=
  let keepdims := node.keepdimsAttr.getD 1
  if ov_input.elemType ∈ supported_types then
    match (if axes_as_attr then get_reduction_axes_from_attr node
           else get_reduction_axes_from_input node) with
    | (Except.error e, ns) => (Except.error e, ns)
    | (Except.ok (some reduction_axes), ns) =>
      let red := IRNode.reduction kind ov_input.node reduction_axes (keepdims != 0)
      (Except.ok red, ns ++ [red])
    | (Except.ok none, ns) => (Except.ok (set1_identity node), ns)
  else
    (Except.error TranslationError.UnsupportedType, [])

/-- `set_1::reduce_log_sum`: `Log(builder(ReduceSum, input))`. -/
def set1_reduce_log_sum (node : Node) : Except TranslationError IRNode × List IRNode :=
  let r := make_ov_reduction_op ReductionKind.sum node node.input0 supported_types_v1 true
  match r with
  | (Except.error e, ns) => (Except.error e, ns)
  | (Except.ok sum_node, ns) =>
    let lg := IRNode.log sum_node
    (Except.ok lg, ns ++ [lg])

/-- `set_1::reduce_log_sum_exp`: constructs `Exp(input)` first, then
`Log(builder(ReduceSum, exp_node))`; the Exp node exists before the builder
runs any validation. -/
def set1_reduce_log_sum_exp (node : Node) : Except TranslationError IRNode × List IRNode :=
  let input := node.input0
  let exp_node := IRNode.exp input.node
  let exp_val := Value.mk exp_node input.elemType input.pshape
  let r := make_ov_reduction_op ReductionKind.sum node exp_val supported_types_v1 true
  match r with
  | (Except.error e, ns) => (Except.error e, exp_node :: ns)
  | (Except.ok sum_node, ns) =>
    let lg := IRNode.log sum_node
    (Except.ok lg, exp_node :: (ns ++ [lg]))

/-- `set_1::reduce_l1`. -/
def set1_reduce_l1 (node : Node) : Except TranslationError IRNode × List IRNode :=
  make_ov_reduction_op ReductionKind.l1 node node.input0 supported_types_v1 true

/-- `set_1::reduce_l2`. -/
def set1_reduce_l2 (node : Node) : Except TranslationError IRNode × List IRNode :=
  make_ov_reduction_op ReductionKind.l2 node node.input0 supported_types_v1 true

/-- `set_1::reduce_max`. -/
def set1_reduce_max (node : Node) : Except TranslationError IRNode × List IRNode :=
  make_ov_reduction_op ReductionKind.max node node.input0 supported_types_v1 true

/-- `set_1::reduce_mean`. -/
def set1_reduce_mean (node : Node) : Except TranslationError IRNode × List IRNode :=
  make_ov_reduction_op ReductionKind.mean node node.input0 supported_types_v1 true

/-- `set_1::reduce_min`. -/
def set1_reduce_min (node : Node) : Except TranslationError IRNode × List IRNode :=
  make_ov_reduction_op ReductionKind.min node node.input0 supported_types_v1 true

/-- `set_1::reduce_prod`. -/
def set1_reduce_prod (node : Node) : Except TranslationError IRNode × List IRNode :=
  make_ov_reduction_op ReductionKind.prod node node.input0 supported_types_v1 true

/-- `set_1::reduce_sum`. -/
def set1_reduce_sum (node : Node) : Except TranslationError IRNode × List IRNode :=
  make_ov_reduction_op ReductionKind.sum node node.input0 supported_types_v1 true

/-- `set_1::reduce_sum_square`: constructs `Multiply(input, input)` first,
then `builder(ReduceSum, square_node)`. -/
def set1_reduce_sum_square (node : Node) : Except TranslationError IRNode × List IRNode :=
  let input := node.input0
  let square_node := IRNode.multiply input.node input.node
  let square_val := Value.mk square_node input.elemType input.pshape
  let r := make_ov_reduction_op ReductionKind.sum node square_val supported_types_v1 true
  (r.1, square_node :: r.2)

/-- `set_13::reduce_sum`: the later era — axes from the optional second
input, wider type set. -/
def set13_reduce_sum (node : Node) : Except TranslationError IRNode × List IRNode :=
  make_ov_reduction_op ReductionKind.sum node node.input0 supported_types_v2 false

/-! ## Helper lemmas shared by several claims -/

/-- The attribute-path resolver never produces a null axes node: every
successful return is `some`. -/
theorem from_attr_fst_ne_ok_none (node : Node) :
    (get_reduction_axes_from_attr node).1 ≠ Except.ok none := by
  unfold get_reduction_axes_from_attr mk_axes_const
  dsimp only
  repeat' split
  all_goals simp

/-- The input-path resolver can only fail with `NonStaticAxesShape`. -/
theorem from_input_error_is_non_static (node : Node) (e : TranslationError)
    (h : (get_reduction_axes_from_input node).1 = Except.error e) :
    e = TranslationError.NonStaticAxesShape := by
  unfold get_reduction_axes_from_input at h
  dsimp only at h
  split at h
  · split at h
    · split at h
      · simp at h
      · unfold empty_axes_result at h
        dsimp only at h
        split at h <;> simp at h
    · simp at h
      exact h.symm
  · unfold empty_axes_result at h
    dsimp only at h
    split at h <;> simp at h

/-- A reduction node is never equal to its own data input. -/
theorem reduction_ne_input (k : ReductionKind) (x ax : IRNode) (kd : Bool) :
    IRNode.reduction k x ax kd ≠ x := by
  intro h
  have hs := congrArg sizeOf h
  simp [IRNode.reduction.sizeOf_spec] at hs
  omega

/-! ## Concrete nodes used by witnesses and counterexamples -/

/-- A rank-2, fully static f32 input value. -/
def sample_val_f32_rank2 : Value :=
  Value.mk (IRNode.param 1) ElemType.f32 (PShape.mk (some [some 2, some 3]))

/-- Early-era node: one static rank-2 f32 input, no attributes. -/
def sample_node_no_axes : Node :=
  Node.mk [sample_val_f32_rank2] none none none

/-- A second-input axes value whose shape has dynamic extent. -/
def sample_axes_dynamic : Value :=
  Value.mk (IRNode.param 2) ElemType.i64 (PShape.mk (some [none]))

/-- Later-era node with a non-static second (axes) input. -/
def sample_node_dyn_axes : Node :=
  Node.mk [sample_val_f32_rank2, sample_axes_dynamic] none none none

/-! ## Claims -/

/-- C1: in the early era (axes from attribute), a node whose `axes`
attribute is empty (or absent, defaulting to empty) and whose first input
has statically known rank `r` resolves the reduction axes to the
compile-time i64 constant holding exactly the monotonic range
`[0, 1, ..., r-1]`. -/
theorem c1_empty_axes_give_monotonic_range (node : Node) (v : Value)
    (rest : List Value) (r : Nat)
    (h : node.inputs = v :: rest)
    (hr : v.pshape.rank = some r)
    (ha : node.axesAttr.getD [] = []) :
    get_reduction_axes_from_attr node =
      (Except.ok (some (IRNode.constant ElemType.i64 [r] (get_monotonic_range r))),
       [IRNode.constant ElemType.i64 [r] (get_monotonic_range r)]) := by
  have h0 : node.input0 = v := by simp [Node.input0, h]
  unfold get_reduction_axes_from_attr
  dsimp only
  rw [h0, hr, ha]
  simp [mk_axes_const]

/-- C1 witness: an attribute-free node with a static rank-2 input resolves
to the constant `[0, 1]`. -/
theorem c1_empty_axes_give_monotonic_range_witness :
    sample_node_no_axes.inputs = [sample_val_f32_rank2] ∧
    sample_val_f32_rank2.pshape.rank = some 2 ∧
    sample_node_no_axes.axesAttr.getD [] = [] ∧
    get_reduction_axes_from_attr sample_node_no_axes =
      (Except.ok (some (IRNode.constant ElemType.i64 [2] (get_monotonic_range 2))),
       [IRNode.constant ElemType.i64 [2] (get_monotonic_range 2)]) :=
  ⟨rfl, rfl, rfl,
   c1_empty_axes_give_monotonic_range sample_node_no_axes sample_val_f32_rank2 [] 2 rfl rfl rfl⟩

/-- C2: in the later era (axes from the second input), a present second
input whose shape is not static makes axis resolution fail with
`NonStaticAxesShape` — with no IR node constructed and for every value of
`noop_with_empty_axes` (the resolver result does not consult it) — and
`set_13::reduce_sum` fails the same way whenever its input's element type
passes validation. -/
theorem c2_non_static_axes_shape (node : Node) (v2 : Value)
    (h : node.inputs[1]? = some v2)
    (hs : v2.pshape.isStatic = false) :
    get_reduction_axes_from_input node =
      (Except.error TranslationError.NonStaticAxesShape, []) ∧
    (node.input0.elemType ∈ supported_types_v2 →
      (set13_reduce_sum node).1 = Except.error TranslationError.NonStaticAxesShape) := by
  have h1 : get_reduction_axes_from_input node =
      (Except.error TranslationError.NonStaticAxesShape, []) := by
    unfold get_reduction_axes_from_input
    dsimp only
    rw [h]
    simp [hs]
  refine ⟨h1, fun hm => ?_⟩
  simp [set13_reduce_sum, make_ov_reduction_op, hm, h1]

/-- C2 witness: a later-era node whose second input has a dynamic extent
fails with `NonStaticAxesShape`. -/
theorem c2_non_static_axes_shape_witness :
    sample_node_dyn_axes.inputs[1]? = some sample_axes_dynamic ∧
    sample_axes_dynamic.pshape.isStatic = false ∧
    (get_reduction_axes_from_input sample_node_dyn_axes =
      (Except.error TranslationError.NonStaticAxesShape, []) ∧
    (sample_node_dyn_axes.input0.elemType ∈ supported_types_v2 →
      (set13_reduce_sum sample_node_dyn_axes).1 =
        Except.error TranslationError.NonStaticAxesShape)) :=
  ⟨rfl, rfl, c2_non_static_axes_shape sample_node_dyn_axes sample_axes_dynamic rfl rfl⟩

/-- C6: early era with static input rank `r`: an `axes` attribute listing
more than `r` axes is rejected with `AxesRankTooLarge` (and nothing is
constructed); when the listed axis count is at most `r`, the check passes
and resolution returns a constant axes node. -/
theorem c6_axes_rank_too_large (node : Node) (v : Value) (rest : List Value)
    (r : Nat) (axes : List Int)
    (h : node.inputs = v :: rest)
    (hr : v.pshape.rank = some r)
    (ha : node.axesAttr = some axes) :
    (r < axes.length →
      get_reduction_axes_from_attr node =
        (Except.error TranslationError.AxesRankTooLarge, [])) ∧
    (axes.length ≤ r →
      ∃ c ns, get_reduction_axes_from_attr node = (Except.ok (some c), ns)) := by
  have h0 : node.input0 = v := by simp [Node.input0, h]
  rcases axes with _ | ⟨a, as⟩
  · constructor
    · intro hgt
      simp at hgt
    · intro _
      have hred : get_reduction_axes_from_attr node =
          mk_axes_const (get_monotonic_range r) := by
        unfold get_reduction_axes_from_attr
        dsimp only
        rw [h0, hr, ha]
        simp
      exact ⟨IRNode.constant ElemType.i64 [(get_monotonic_range r).length] (get_monotonic_range r),
             [IRNode.constant ElemType.i64 [(get_monotonic_range r).length] (get_monotonic_range r)],
             hred.trans rfl⟩
  · constructor
    · intro hgt
      have hn : ¬((a :: as).length ≤ r) := by omega
      unfold get_reduction_axes_from_attr
      dsimp only
      rw [h0, hr, ha]
      simp [hn]
      exact fun hc => absurd hc hn
    · intro hle
      have hred : get_reduction_axes_from_attr node = mk_axes_const (a :: as) := by
        unfold get_reduction_axes_from_attr
        dsimp only
        rw [h0, hr, ha]
        simp [hle]
        exact fun hc => absurd hle (by simp only [List.length_cons]; omega)
      exact ⟨IRNode.constant ElemType.i64 [(a :: as).length] (a :: as),
             [IRNode.constant ElemType.i64 [(a :: as).length] (a :: as)],
             hred.trans rfl⟩

/-- C6 witness: a rank-2 input with `axes = [0, 1, 2]` fails with
`AxesRankTooLarge`, while `axes = [0, 1]` passes the check. -/
theorem c6_axes_rank_too_large_witness :
    ((Node.mk [sample_val_f32_rank2] (some [0, 1, 2]) none none).inputs
        = [sample_val_f32_rank2] ∧
      sample_val_f32_rank2.pshape.rank = some 2 ∧
      (2 < (([0, 1, 2] : List Int)).length →
        get_reduction_axes_from_attr (Node.mk [sample_val_f32_rank2] (some [0, 1, 2]) none none) =
          (Except.error TranslationError.AxesRankTooLarge, []))) ∧
    ((([0, 1] : List Int)).length ≤ 2 →
      ∃ c ns, get_reduction_axes_from_attr (Node.mk [sample_val_f32_rank2] (some [0, 1]) none none) =
        (Except.ok (some c), ns)) :=
  ⟨⟨rfl, rfl,
    (c6_axes_rank_too_large (Node.mk [sample_val_f32_rank2] (some [0, 1, 2]) none none)
      sample_val_f32_rank2 [] 2 [0, 1, 2] rfl rfl rfl).1⟩,
   (c6_axes_rank_too_large (Node.mk [sample_val_f32_rank2] (some [0, 1]) none none)
      sample_val_f32_rank2 [] 2 [0, 1] rfl rfl rfl).2⟩

/-- A dynamic-rank f32 input value. -/
def sample_val_dynrank : Value :=
  Value.mk (IRNode.param 1) ElemType.f32 (PShape.mk none)

/-- Early-era node with a dynamic-rank input and `axes = [0]`. -/
def sample_node_dynrank_axes : Node :=
  Node.mk [sample_val_dynrank] (some [0]) none none

/-- Later-era node: one supported input, `noop_with_empty_axes = 1`,
no second input. -/
def sample_node_noop : Node :=
  Node.mk [sample_val_f32_rank2] none (some 1) none

/-- A bf16 static input value. -/
def sample_val_bf16 : Value :=
  Value.mk (IRNode.param 1) ElemType.bf16 (PShape.mk (some [some 2]))

/-- Node whose only input is bf16. -/
def sample_node_bf16 : Node :=
  Node.mk [sample_val_bf16] none none none

/-- When the element type is rejected, the shared builder fails with
`UnsupportedType` and constructs nothing. -/
theorem make_unsupported (kind : ReductionKind) (node : Node) (ov_input : Value)
    (st : List ElemType) (b : Bool) (hm : ov_input.elemType ∉ st) :
    make_ov_reduction_op kind node ov_input st b =
      (Except.error TranslationError.UnsupportedType, []) := by
  unfold make_ov_reduction_op
  dsimp only
  rw [if_neg hm]

/-- C3: later era with `noop_with_empty_axes` set and no axes effectively
supplied (no second input, or a second input whose static shape is the
rank-0 or `Shape{0}` empty case): `set_13::reduce_sum` returns the first
input's node itself and constructs no IR node at all — the output aliases
the input. -/
theorem c3_noop_identity_passthrough (node : Node) (v : Value) (rest : List Value)
    (h : node.inputs = v :: rest)
    (ht : v.elemType ∈ supported_types_v2)
    (hnoop : node.noopAttr.getD 0 ≠ 0)
    (hax : node.inputs[1]? = none ∨
      ∃ v2, node.inputs[1]? = some v2 ∧ v2.pshape.isStatic = true ∧
        (v2.pshape.rank.getD 0 = 0 ∨ v2.pshape.toShape = [0])) :
    set13_reduce_sum node = (Except.ok v.node, []) := by
  have h0 : node.input0 = v := by simp [Node.input0, h]
  have hempty : empty_axes_result node (node.noopAttr.getD 0) = (Except.ok none, []) := by
    unfold empty_axes_result
    simp [hnoop]
  have hres : get_reduction_axes_from_input node = (Except.ok none, []) := by
    unfold get_reduction_axes_from_input
    dsimp only
    rcases hax with hax | ⟨v2, hv2, hstat, hcase⟩
    · rw [hax]
      exact hempty
    · rw [hv2]
      rcases hcase with hr0 | hsh
      · simpa [hstat, hr0] using hempty
      · simpa [hstat, hsh] using hempty
  simp [set13_reduce_sum, make_ov_reduction_op, h0, ht, hres, set1_identity]

/-- C3 witness: `noop_with_empty_axes = 1` with a single input yields the
input node back with nothing constructed. -/
theorem c3_noop_identity_passthrough_witness :
    sample_node_noop.inputs = [sample_val_f32_rank2] ∧
    sample_val_f32_rank2.elemType ∈ supported_types_v2 ∧
    sample_node_noop.noopAttr.getD 0 ≠ 0 ∧
    set13_reduce_sum sample_node_noop = (Except.ok sample_val_f32_rank2.node, []) :=
  ⟨rfl, by decide, by decide,
   c3_noop_identity_passthrough sample_node_noop sample_val_f32_rank2 [] rfl
     (by decide) (by decide) (Or.inl rfl)⟩

/-- C5 counterexample: with `axes = [0]` and a rank-unknown first input,
the attribute-path resolver emits the attribute's axes as an i64 constant;
it does not fall back to the dynamically synthesized all-axes range, so the
claimed rank-unknown fallback does not happen for non-empty attributes. -/
theorem c5_counterexample_nonempty_axes_kept :
    get_reduction_axes_from_attr sample_node_dynrank_axes =
      (Except.ok (some (IRNode.constant ElemType.i64 [1] [0])),
       [IRNode.constant ElemType.i64 [1] [0]]) ∧
    (get_reduction_axes_from_attr sample_node_dynrank_axes).1 ≠
      Except.ok (some (get_dynamic_all_axes_range sample_node_dynrank_axes).1) := by
  constructor
  · decide
  · decide

/-- C5 (amended): for the attribute path with a rank-unknown first input,
the dynamic all-axes fallback happens exactly when the `axes` attribute is
empty or absent; a non-empty attribute is emitted unchanged (and
unvalidated, the axis-count check being skipped) as a compile-time
constant, not discarded. -/
theorem c5_unknown_rank_fallback_only_when_empty (node : Node) (v : Value)
    (rest : List Value)
    (h : node.inputs = v :: rest)
    (hr : v.pshape.rank = none) :
    (node.axesAttr.getD [] = [] →
      get_reduction_axes_from_attr node =
        (Except.ok (some (get_dynamic_all_axes_range node).1),
         (get_dynamic_all_axes_range node).2)) ∧
    (∀ a as, node.axesAttr = some (a :: as) →
      get_reduction_axes_from_attr node =
        (Except.ok (some (IRNode.constant ElemType.i64 [(a :: as).length] (a :: as))),
         [IRNode.constant ElemType.i64 [(a :: as).length] (a :: as)])) := by
  have h0 : node.input0 = v := by simp [Node.input0, h]
  constructor
  · intro ha
    unfold get_reduction_axes_from_attr
    dsimp only
    rw [h0, hr, ha]
    simp
  · intro a as ha
    unfold get_reduction_axes_from_attr
    dsimp only
    rw [h0, hr, ha]
    simp [mk_axes_const]

/-- C5 amended-claim witness at a dynamic-rank input with `axes = [0]`. -/
theorem c5_unknown_rank_fallback_only_when_empty_witness :
    sample_node_dynrank_axes.inputs = [sample_val_dynrank] ∧
    sample_val_dynrank.pshape.rank = none ∧
    (∀ a as, sample_node_dynrank_axes.axesAttr = some (a :: as) →
      get_reduction_axes_from_attr sample_node_dynrank_axes =
        (Except.ok (some (IRNode.constant ElemType.i64 [(a :: as).length] (a :: as))),
         [IRNode.constant ElemType.i64 [(a :: as).length] (a :: as)])) :=
  ⟨rfl, rfl,
   (c5_unknown_rank_fallback_only_when_empty sample_node_dynrank_axes
     sample_val_dynrank [] rfl rfl).2⟩

/-- C9: the early-era supported set is exactly
{u32, u64, i32, i64, f16, f32, f64} and the later-era set is exactly that
set plus bf16; consequently a bf16 input fails with `UnsupportedType`
under every early-era translator yet passes the later-era `reduce_sum`
type validation (it can never fail with `UnsupportedType`). -/
theorem c9_supported_type_sets (node : Node) (v : Value) (rest : List Value)
    (h : node.inputs = v :: rest)
    (ht : v.elemType = ElemType.bf16) :
    (∀ t : ElemType, t ∈ supported_types_v1 ↔
      (t = ElemType.u32 ∨ t = ElemType.u64 ∨ t = ElemType.i32 ∨ t = ElemType.i64 ∨
       t = ElemType.f16 ∨ t = ElemType.f32 ∨ t = ElemType.f64)) ∧
    (∀ t : ElemType, t ∈ supported_types_v2 ↔
      (t ∈ supported_types_v1 ∨ t = ElemType.bf16)) ∧
    (set1_reduce_sum node).1 = Except.error TranslationError.UnsupportedType ∧
    (set1_reduce_mean node).1 = Except.error TranslationError.UnsupportedType ∧
    (set1_reduce_min node).1 = Except.error TranslationError.UnsupportedType ∧
    (set1_reduce_max node).1 = Except.error TranslationError.UnsupportedType ∧
    (set1_reduce_prod node).1 = Except.error TranslationError.UnsupportedType ∧
    (set1_reduce_l1 node).1 = Except.error TranslationError.UnsupportedType ∧
    (set1_reduce_l2 node).1 = Except.error TranslationError.UnsupportedType ∧
    (set1_reduce_log_sum node).1 = Except.error TranslationError.UnsupportedType ∧
    (set1_reduce_log_sum_exp node).1 = Except.error TranslationError.UnsupportedType ∧
    (set1_reduce_sum_square node).1 = Except.error TranslationError.UnsupportedType ∧
    (set13_reduce_sum node).1 ≠ Except.error TranslationError.UnsupportedType := by
  have h0 : node.input0 = v := by simp [Node.input0, h]
  have hm1 : node.input0.elemType ∉ supported_types_v1 := by
    rw [h0, ht]; decide
  have hm2 : node.input0.elemType ∈ supported_types_v2 := by
    rw [h0, ht]; decide
  refine ⟨by decide, by decide, ?_, ?_, ?_, ?_, ?_, ?_, ?_, ?_, ?_, ?_, ?_⟩
  · unfold set1_reduce_sum
    rw [make_unsupported _ _ _ _ _ hm1]
  · unfold set1_reduce_mean
    rw [make_unsupported _ _ _ _ _ hm1]
  · unfold set1_reduce_min
    rw [make_unsupported _ _ _ _ _ hm1]
  · unfold set1_reduce_max
    rw [make_unsupported _ _ _ _ _ hm1]
  · unfold set1_reduce_prod
    rw [make_unsupported _ _ _ _ _ hm1]
  · unfold set1_reduce_l1
    rw [make_unsupported _ _ _ _ _ hm1]
  · unfold set1_reduce_l2
    rw [make_unsupported _ _ _ _ _ hm1]
  · unfold set1_reduce_log_sum
    rw [make_unsupported _ _ _ _ _ hm1]
  · unfold set1_reduce_log_sum_exp
    dsimp only
    rw [make_unsupported ReductionKind.sum node
        (Value.mk (IRNode.exp node.input0.node) node.input0.elemType node.input0.pshape)
        supported_types_v1 true hm1]
  · unfold set1_reduce_sum_square
    dsimp only
    rw [make_unsupported ReductionKind.sum node
        (Value.mk (IRNode.multiply node.input0.node node.input0.node)
          node.input0.elemType node.input0.pshape)
        supported_types_v1 true hm1]
  · unfold set13_reduce_sum make_ov_reduction_op
    rw [if_pos hm2]
    rcases hres : get_reduction_axes_from_input node with ⟨er, ns⟩
    rcases er with e | o
    · have he := from_input_error_is_non_static node e (by rw [hres])
      subst he
      simp [hres]
    · rcases o with _ | x <;> simp [hres]

/-- C9 witness: a bf16 input node exercising every translator. -/
theorem c9_supported_type_sets_witness :
    sample_node_bf16.inputs = [sample_val_bf16] ∧
    sample_val_bf16.elemType = ElemType.bf16 ∧
    (set1_reduce_sum sample_node_bf16).1 = Except.error TranslationError.UnsupportedType ∧
    (set13_reduce_sum sample_node_bf16).1 ≠ Except.error TranslationError.UnsupportedType :=
  ⟨rfl, rfl,
   (c9_supported_type_sets sample_node_bf16 sample_val_bf16 [] rfl rfl).2.2.1,
   (c9_supported_type_sets sample_node_bf16 sample_val_bf16 [] rfl
     rfl).2.2.2.2.2.2.2.2.2.2.2.2⟩

/-- C10: the attribute-path (early-era) builder never takes the identity
branch: every accepted invocation returns a newly constructed reduction
node over the supplied input (with the resolved axes and the node's
`keepdims`), that node is among the constructed nodes, and it never
aliases the input's producing node — regardless of the `axes` or
`noop_with_empty_axes` attributes. -/
theorem c10_attr_path_always_builds_reduction (kind : ReductionKind)
    (node : Node) (ov_input : Value) (st : List ElemType)
    (out : IRNode) (ns : List IRNode)
    (h : make_ov_reduction_op kind node ov_input st true = (Except.ok out, ns)) :
    ∃ ax, out = IRNode.reduction kind ov_input.node ax ((node.keepdimsAttr.getD 1) != 0) ∧
      out ∈ ns ∧ out ≠ ov_input.node := by
  by_cases hm : ov_input.elemType ∈ st
  · unfold make_ov_reduction_op at h
    rw [if_pos hm] at h
    rcases hres : get_reduction_axes_from_attr node with ⟨er, ns2⟩
    simp only [hres] at h
    rcases er with e | o
    · simp at h
    · rcases o with _ | ax
      · exact absurd (by rw [hres]) (from_attr_fst_ne_ok_none node)
      · simp at h
        refine ⟨ax, h.1.symm, ?_, ?_⟩
        · rw [← h.2, h.1]
          simp
        · rw [← h.1]
          exact reduction_ne_input kind ov_input.node ax _
  · rw [make_unsupported _ _ _ _ _ hm] at h
    simp at h

/-- C10 witness: a concrete accepted builder invocation (f32 input,
rank 1, no attributes) yields the freshly built reduction node. -/
theorem c10_attr_path_always_builds_reduction_witness :
    make_ov_reduction_op ReductionKind.sum
        (Node.mk [Value.mk (IRNode.param 3) ElemType.f32 (PShape.mk (some [some 4]))] none none none)
        (Value.mk (IRNode.param 3) ElemType.f32 (PShape.mk (some [some 4])))
        supported_types_v1 true =
      (Except.ok (IRNode.reduction ReductionKind.sum (IRNode.param 3)
         (IRNode.constant ElemType.i64 [1] [0]) true),
       [IRNode.constant ElemType.i64 [1] [0],
        IRNode.reduction ReductionKind.sum (IRNode.param 3)
         (IRNode.constant ElemType.i64 [1] [0]) true]) ∧
    ∃ ax, IRNode.reduction ReductionKind.sum (IRNode.param 3)
            (IRNode.constant ElemType.i64 [1] [0]) true =
          IRNode.reduction ReductionKind.sum
            (Value.mk (IRNode.param 3) ElemType.f32 (PShape.mk (some [some 4]))).node ax
            (((Node.mk [Value.mk (IRNode.param 3) ElemType.f32 (PShape.mk (some [some 4]))]
                none none none).keepdimsAttr.getD 1) != 0) ∧
          IRNode.reduction ReductionKind.sum (IRNode.param 3)
            (IRNode.constant ElemType.i64 [1] [0]) true ∈
            [IRNode.constant ElemType.i64 [1] [0],
             IRNode.reduction ReductionKind.sum (IRNode.param 3)
               (IRNode.constant ElemType.i64 [1] [0]) true] ∧
          IRNode.reduction ReductionKind.sum (IRNode.param 3)
            (IRNode.constant ElemType.i64 [1] [0]) true ≠
          (Value.mk (IRNode.param 3) ElemType.f32 (PShape.mk (some [some 4]))).node :=
  ⟨by decide,
   c10_attr_path_always_builds_reduction ReductionKind.sum
     (Node.mk [Value.mk (IRNode.param 3) ElemType.f32 (PShape.mk (some [some 4]))] none none none)
     (Value.mk (IRNode.param 3) ElemType.f32 (PShape.mk (some [some 4])))
     supported_types_v1 _ _ (by decide)⟩

/-- A boolean static input value — outside both supported type sets. -/
def sample_val_bool : Value :=
  Value.mk (IRNode.param 1) ElemType.boolean (PShape.mk (some [some 2]))

/-- Node whose only input is boolean. -/
def sample_node_bool : Node :=
  Node.mk [sample_val_bool] none none none

/-- C4 counterexample: on a boolean input `reduce_log_sum_exp` does fail
with `UnsupportedType`, but the elementwise Exp node over the input has
already been constructed when the failure occurs, so the claim's "no Exp,
Multiply, reduction, or other node is created prior to the failure" is
false at this input. -/
theorem c4_counterexample_exp_before_failure :
    (set1_reduce_log_sum_exp sample_node_bool).1 =
      Except.error TranslationError.UnsupportedType ∧
    (set1_reduce_log_sum_exp sample_node_bool).2 = [IRNode.exp (IRNode.param 1)] ∧
    (set1_reduce_log_sum_exp sample_node_bool).2 ≠ ([] : List IRNode) := by
  refine ⟨by decide, by decide, by decide⟩

/-- C4 (amended): an input element type outside the operator's supported
set makes every translator fail with `UnsupportedType`, and no reduction
node is ever constructed before the failure; the translators that pass the
raw input to the shared builder construct nothing at all, but
`reduce_log_sum_exp` has already constructed the elementwise Exp node and
`reduce_sum_square` the elementwise Multiply node when the failure
occurs. -/
theorem c4_unsupported_type_fails (node : Node) (v : Value) (rest : List Value)
    (h : node.inputs = v :: rest)
    (hm : v.elemType ∉ supported_types_v1) :
    set1_reduce_sum node = (Except.error TranslationError.UnsupportedType, []) ∧
    set1_reduce_mean node = (Except.error TranslationError.UnsupportedType, []) ∧
    set1_reduce_min node = (Except.error TranslationError.UnsupportedType, []) ∧
    set1_reduce_max node = (Except.error TranslationError.UnsupportedType, []) ∧
    set1_reduce_prod node = (Except.error TranslationError.UnsupportedType, []) ∧
    set1_reduce_l1 node = (Except.error TranslationError.UnsupportedType, []) ∧
    set1_reduce_l2 node = (Except.error TranslationError.UnsupportedType, []) ∧
    set1_reduce_log_sum node = (Except.error TranslationError.UnsupportedType, []) ∧
    set1_reduce_log_sum_exp node =
      (Except.error TranslationError.UnsupportedType, [IRNode.exp v.node]) ∧
    set1_reduce_sum_square node =
      (Except.error TranslationError.UnsupportedType, [IRNode.multiply v.node v.node]) ∧
    (v.elemType ∉ supported_types_v2 →
      set13_reduce_sum node = (Except.error TranslationError.UnsupportedType, [])) := by
  have h0 : node.input0 = v := by simp [Node.input0, h]
  have hm0 : node.input0.elemType ∉ supported_types_v1 := by rw [h0]; exact hm
  refine ⟨?_, ?_, ?_, ?_, ?_, ?_, ?_, ?_, ?_, ?_, ?_⟩
  · unfold set1_reduce_sum
    rw [make_unsupported _ _ _ _ _ hm0]
  · unfold set1_reduce_mean
    rw [make_unsupported _ _ _ _ _ hm0]
  · unfold set1_reduce_min
    rw [make_unsupported _ _ _ _ _ hm0]
  · unfold set1_reduce_max
    rw [make_unsupported _ _ _ _ _ hm0]
  · unfold set1_reduce_prod
    rw [make_unsupported _ _ _ _ _ hm0]
  · unfold set1_reduce_l1
    rw [make_unsupported _ _ _ _ _ hm0]
  · unfold set1_reduce_l2
    rw [make_unsupported _ _ _ _ _ hm0]
  · unfold set1_reduce_log_sum
    dsimp only
    rw [make_unsupported _ _ _ _ _ hm0]
  · unfold set1_reduce_log_sum_exp
    dsimp only
    rw [h0]
    rw [make_unsupported ReductionKind.sum node
        (Value.mk (IRNode.exp v.node) v.elemType v.pshape) supported_types_v1 true hm]
  · unfold set1_reduce_sum_square
    dsimp only
    rw [h0]
    rw [make_unsupported ReductionKind.sum node
        (Value.mk (IRNode.multiply v.node v.node) v.elemType v.pshape)
        supported_types_v1 true hm]
  · intro hm2
    unfold set13_reduce_sum
    rw [h0]
    exact make_unsupported _ _ _ _ _ hm2

/-- C4 amended-claim witness at a boolean input. -/
theorem c4_unsupported_type_fails_witness :
    sample_node_bool.inputs = [sample_val_bool] ∧
    sample_val_bool.elemType ∉ supported_types_v1 ∧
    set1_reduce_sum sample_node_bool =
      (Except.error TranslationError.UnsupportedType, []) ∧
    set1_reduce_log_sum_exp sample_node_bool =
      (Except.error TranslationError.UnsupportedType, [IRNode.exp sample_val_bool.node]) :=
  ⟨rfl, by decide,
   (c4_unsupported_type_fails sample_node_bool sample_val_bool [] rfl (by decide)).1,
   (c4_unsupported_type_fails sample_node_bool sample_val_bool [] rfl
     (by decide)).2.2.2.2.2.2.2.2.1⟩

/-- C7: `reduce_log_sum_exp` emits exactly `Log(ReduceSum(Exp(input)))`:
it errors precisely when `reduce_sum` errors on the same node, and on
success its output is the Log of a sum-reduction applied to the
elementwise Exp of the input, with the same resolved axes node and the
same `keepdims` flag as `reduce_sum`'s own output on that node — with no
further node (in particular no max-subtraction) in between. -/
theorem c7_log_sum_exp_decomposition (node : Node) (v : Value) (rest : List Value)
    (h : node.inputs = v :: rest) :
    (∀ e, (set1_reduce_log_sum_exp node).1 = Except.error e ↔
      (set1_reduce_sum node).1 = Except.error e) ∧
    (∀ out ns, set1_reduce_log_sum_exp node = (Except.ok out, ns) →
      ∃ ax, out = IRNode.log (IRNode.reduction ReductionKind.sum (IRNode.exp v.node) ax
            ((node.keepdimsAttr.getD 1) != 0)) ∧
        (set1_reduce_sum node).1 = Except.ok (IRNode.reduction ReductionKind.sum v.node ax
            ((node.keepdimsAttr.getD 1) != 0))) := by
  have h0 : node.input0 = v := by simp [Node.input0, h]
  by_cases hm : v.elemType ∈ supported_types_v1
  · rcases hres : get_reduction_axes_from_attr node with ⟨er, ns2⟩
    rcases er with e | o
    · have hsum : set1_reduce_sum node = (Except.error e, ns2) := by
        unfold set1_reduce_sum make_ov_reduction_op
        rw [h0]
        simp [hm, hres]
      have hlse : set1_reduce_log_sum_exp node =
          (Except.error e, IRNode.exp v.node :: ns2) := by
        unfold set1_reduce_log_sum_exp make_ov_reduction_op
        dsimp only
        rw [h0]
        simp [hm, hres]
      constructor
      · intro e'
        rw [hsum, hlse]
      · intro out ns hout
        rw [hlse] at hout
        simp at hout
    · rcases o with _ | ax
      · exact absurd (by rw [hres]) (from_attr_fst_ne_ok_none node)
      · have hsum : set1_reduce_sum node =
            (Except.ok (IRNode.reduction ReductionKind.sum v.node ax
              ((node.keepdimsAttr.getD 1) != 0)),
             ns2 ++ [IRNode.reduction ReductionKind.sum v.node ax
              ((node.keepdimsAttr.getD 1) != 0)]) := by
          unfold set1_reduce_sum make_ov_reduction_op
          rw [h0]
          simp [hm, hres]
        have hlse : set1_reduce_log_sum_exp node =
            (Except.ok (IRNode.log (IRNode.reduction ReductionKind.sum (IRNode.exp v.node) ax
              ((node.keepdimsAttr.getD 1) != 0))),
             IRNode.exp v.node ::
               ((ns2 ++ [IRNode.reduction ReductionKind.sum (IRNode.exp v.node) ax
                  ((node.keepdimsAttr.getD 1) != 0)]) ++
                [IRNode.log (IRNode.reduction ReductionKind.sum (IRNode.exp v.node) ax
                  ((node.keepdimsAttr.getD 1) != 0))])) := by
          unfold set1_reduce_log_sum_exp make_ov_reduction_op
          dsimp only
          rw [h0]
          simp [hm, hres]
        constructor
        · intro e'
          rw [hsum, hlse]
          simp
        · intro out ns hout
          rw [hlse] at hout
          simp only [Prod.mk.injEq, Except.ok.injEq] at hout
          refine ⟨ax, hout.1.symm, ?_⟩
          rw [hsum]
  · have hm0 : node.input0.elemType ∉ supported_types_v1 := by rw [h0]; exact hm
    have hsum : set1_reduce_sum node =
        (Except.error TranslationError.UnsupportedType, []) := by
      unfold set1_reduce_sum
      rw [make_unsupported _ _ _ _ _ hm0]
    have hlse : set1_reduce_log_sum_exp node =
        (Except.error TranslationError.UnsupportedType, [IRNode.exp v.node]) := by
      unfold set1_reduce_log_sum_exp
      dsimp only
      rw [h0]
      rw [make_unsupported ReductionKind.sum node
          (Value.mk (IRNode.exp v.node) v.elemType v.pshape) supported_types_v1 true hm]
    constructor
    · intro e'
      rw [hsum, hlse]
    · intro out ns hout
      rw [hlse] at hout
      simp at hout

/-- C7 witness: a static rank-2 f32 node, where `reduce_log_sum_exp`
produces `Log(ReduceSum(Exp(input), [0, 1]))`. -/
theorem c7_log_sum_exp_decomposition_witness :
    sample_node_no_axes.inputs = [sample_val_f32_rank2] ∧
    (∀ out ns, set1_reduce_log_sum_exp sample_node_no_axes = (Except.ok out, ns) →
      ∃ ax, out = IRNode.log (IRNode.reduction ReductionKind.sum
            (IRNode.exp sample_val_f32_rank2.node) ax
            ((sample_node_no_axes.keepdimsAttr.getD 1) != 0)) ∧
        (set1_reduce_sum sample_node_no_axes).1 =
          Except.ok (IRNode.reduction ReductionKind.sum sample_val_f32_rank2.node ax
            ((sample_node_no_axes.keepdimsAttr.getD 1) != 0))) :=
  ⟨rfl,
   (c7_log_sum_exp_decomposition sample_node_no_axes sample_val_f32_rank2 [] rfl).2⟩

/-- C8: `reduce_sum_square` equals `reduce_sum` applied to the elementwise
square `Multiply(input, input)`: it errors precisely when `reduce_sum`
errors on the same node, and on success its output is a sum-reduction over
the Multiply node with the same resolved axes node and `keepdims` flag as
`reduce_sum`'s own output on that node. -/
theorem c8_sum_square_decomposition (node : Node) (v : Value) (rest : List Value)
    (h : node.inputs = v :: rest) :
    (∀ e, (set1_reduce_sum_square node).1 = Except.error e ↔
      (set1_reduce_sum node).1 = Except.error e) ∧
    (∀ out ns, set1_reduce_sum_square node = (Except.ok out, ns) →
      ∃ ax, out = IRNode.reduction ReductionKind.sum (IRNode.multiply v.node v.node) ax
            ((node.keepdimsAttr.getD 1) != 0) ∧
        (set1_reduce_sum node).1 = Except.ok (IRNode.reduction ReductionKind.sum v.node ax
            ((node.keepdimsAttr.getD 1) != 0))) := by
  have h0 : node.input0 = v := by simp [Node.input0, h]
  by_cases hm : v.elemType ∈ supported_types_v1
  · rcases hres : get_reduction_axes_from_attr node with ⟨er, ns2⟩
    rcases er with e | o
    · have hsum : set1_reduce_sum node = (Except.error e, ns2) := by
        unfold set1_reduce_sum make_ov_reduction_op
        rw [h0]
        simp [hm, hres]
      have hsq : set1_reduce_sum_square node =
          (Except.error e, IRNode.multiply v.node v.node :: ns2) := by
        unfold set1_reduce_sum_square make_ov_reduction_op
        dsimp only
        rw [h0]
        simp [hm, hres]
      constructor
      · intro e'
        rw [hsum, hsq]
      · intro out ns hout
        rw [hsq] at hout
        simp at hout
    · rcases o with _ | ax
      · exact absurd (by rw [hres]) (from_attr_fst_ne_ok_none node)
      · have hsum : set1_reduce_sum node =
            (Except.ok (IRNode.reduction ReductionKind.sum v.node ax
              ((node.keepdimsAttr.getD 1) != 0)),
             ns2 ++ [IRNode.reduction ReductionKind.sum v.node ax
              ((node.keepdimsAttr.getD 1) != 0)]) := by
          unfold set1_reduce_sum make_ov_reduction_op
          rw [h0]
          simp [hm, hres]
        have hsq : set1_reduce_sum_square node =
            (Except.ok (IRNode.reduction ReductionKind.sum
              (IRNode.multiply v.node v.node) ax ((node.keepdimsAttr.getD 1) != 0)),
             IRNode.multiply v.node v.node ::
               (ns2 ++ [IRNode.reduction ReductionKind.sum
                 (IRNode.multiply v.node v.node) ax ((node.keepdimsAttr.getD 1) != 0)])) := by
          unfold set1_reduce_sum_square make_ov_reduction_op
          dsimp only
          rw [h0]
          simp [hm, hres]
        constructor
        · intro e'
          rw [hsum, hsq]
          simp
        · intro out ns hout
          rw [hsq] at hout
          simp only [Prod.mk.injEq, Except.ok.injEq] at hout
          refine ⟨ax, hout.1.symm, ?_⟩
          rw [hsum]
  · have hm0 : node.input0.elemType ∉ supported_types_v1 := by rw [h0]; exact hm
    have hsum : set1_reduce_sum node =
        (Except.error TranslationError.UnsupportedType, []) := by
      unfold set1_reduce_sum
      rw [make_unsupported _ _ _ _ _ hm0]
    have hsq : set1_reduce_sum_square node =
        (Except.error TranslationError.UnsupportedType,
         [IRNode.multiply v.node v.node]) := by
      unfold set1_reduce_sum_square
      dsimp only
      rw [h0]
      rw [make_unsupported ReductionKind.sum node
          (Value.mk (IRNode.multiply v.node v.node) v.elemType v.pshape)
          supported_types_v1 true hm]
    constructor
    · intro e'
      rw [hsum, hsq]
    · intro out ns hout
      rw [hsq] at hout
      simp at hout

/-- C8 witness: a static rank-2 f32 node, where `reduce_sum_square`
produces `ReduceSum(Multiply(input, input), [0, 1])`. -/
theorem c8_sum_square_decomposition_witness :
    sample_node_no_axes.inputs = [sample_val_f32_rank2] ∧
    (∀ out ns, set1_reduce_sum_square sample_node_no_axes = (Except.ok out, ns) →
      ∃ ax, out = IRNode.reduction ReductionKind.sum
            (IRNode.multiply sample_val_f32_rank2.node sample_val_f32_rank2.node) ax
            ((sample_node_no_axes.keepdimsAttr.getD 1) != 0) ∧
        (set1_reduce_sum sample_node_no_axes).1 =
          Except.ok (IRNode.reduction ReductionKind.sum sample_val_f32_rank2.node ax
            ((sample_node_no_axes.keepdimsAttr.getD 1) != 0))) :=
  ⟨rfl,
   (c8_sum_square_decomposition sample_node_no_axes sample_val_f32_rank2 [] rfl).2⟩

end ONNXReduce
